import Mathlib

/-!
Shallow embedding of the transaction-processing engine:
the transaction record and its dispute state machine (`src/instructions.rs`),
the per-client account ledger (`src/account.rs`), and the client router
(`Register` in `src/main.rs`).

Modelling conventions:
* `rust_decimal::Decimal` amounts are modelled as exact rationals `ℚ`
  (the crate performs exact scaled-integer arithmetic on the values the
  claims are about).  `Decimal::set_sign_negative(true)` forces the sign
  flag negative, i.e. sends a value `a` to `-|a|`.
* `HashMap<K, V>` is modelled as an association list with
  overwrite-on-insert (`hinsert`) and first-match lookup (`hlookup`);
  only `insert`, `get` and `entry().or_insert_with` are used by the code.
* Rust methods on `&mut self` returning `Result<(), E>` become functions
  `Account → _ → Except Error Unit × Account`: the returned account is the
  state after the statements that actually ran on that path, so an error
  path returns the untouched receiver exactly as the source does.
* `Cell<TransactionState>` interior mutability: `try_set_*` return the
  updated record, and the caller writes it back into the history at the
  same key, which is what the in-place cell write amounts to.
-/

namespace TxSys

/-- `HashMap::insert`: overwrite the binding of `k` if present, else append. -/
def hinsert {α : Type} (k : Nat) (v : α) : List (Nat × α) → List (Nat × α)
  | [] => [(k, v)]
  | (k', v') :: rest => if k' = k then (k, v) :: rest else (k', v') :: hinsert k v rest

/-- `HashMap::get`: first binding of `k`, if any. -/
def hlookup {α : Type} (k : Nat) : List (Nat × α) → Option α
  | [] => none
  | (k', v') :: rest => if k' = k then some v' else hlookup k rest

/-- The four dispute states of `TransactionState` in `src/instructions.rs`. -/
inductive TransactionState : Type
  | Undisputed
  | Disputed
  | Resolved
  | Chargedback
deriving DecidableEq, Repr

/-- `Transaction` record: client id, tx id, signed amount, dispute state. -/
structure Transaction : Type where
  client : Nat
  tx : Nat
  amount : ℚ
  state : TransactionState
deriving DecidableEq, Repr

/-- `Operation`: client and tx reference carried by dispute/resolve/chargeback. -/
structure Operation : Type where
  client : Nat
  tx : Nat
deriving DecidableEq, Repr

/-- The domain error variants of `TransactionSystemError` used by the ledger. -/
inductive TransactionSystemError : Type
  | TransactionError (message : String) (transaction : Transaction)
  | OperationError (message : String) (operation : Operation)
  | TransactionStateError (oldstate newstate : TransactionState)
deriving DecidableEq, Repr

/-- `Transaction::negate`: `self.amount.set_sign_negative(true)`, which forces
the sign flag negative, i.e. replaces the amount by `-|amount|`. -/
def Transaction.negate (t : Transaction) : Transaction :=
  { t with amount := -|t.amount| }

/-- `Transaction::try_set_disputed`: `Undisputed`/`Resolved` move to `Disputed`,
anything else is a state-conflict error carrying the old and new states. -/
def Transaction.try_set_disputed (t : Transaction) :
    Except TransactionSystemError Transaction :=
  match t.state with
  | .Undisputed | .Resolved => .ok { t with state := .Disputed }
  | _ => .error (.TransactionStateError t.state .Disputed)

/-- `Transaction::try_set_resolved`: only `Disputed` moves to `Resolved`. -/
def Transaction.try_set_resolved (t : Transaction) :
    Except TransactionSystemError Transaction :=
  match t.state with
  | .Disputed => .ok { t with state := .Resolved }
  | _ => .error (.TransactionStateError t.state .Resolved)

/-- `Transaction::try_set_chargedback`: only `Disputed` moves to `Chargedback`. -/
def Transaction.try_set_chargedback (t : Transaction) :
    Except TransactionSystemError Transaction :=
  match t.state with
  | .Disputed => .ok { t with state := .Chargedback }
  | _ => .error (.TransactionStateError t.state .Chargedback)

/-- The `Instruction` tagged union of `src/instructions.rs`. -/
inductive Instruction : Type
  | Deposit (data : Transaction)
  | Withdrawal (data : Transaction)
  | Dispute (data : Operation)
  | Resolve (data : Operation)
  | Chargeback (data : Operation)
deriving DecidableEq, Repr

/-- `Instruction::client`. -/
def Instruction.client : Instruction → Nat
  | .Deposit t | .Withdrawal t => t.client
  | .Dispute o | .Resolve o | .Chargeback o => o.client

/-- The `Account` struct of `src/account.rs`. -/
structure Account : Type where
  available : ℚ
  held : ℚ
  total : ℚ
  locked : Bool
  txhistory : List (Nat × Transaction)
deriving DecidableEq, Repr

/-- `Account::default()`: zero balances, unlocked, empty history. -/
def Account.default : Account :=
  { available := 0, held := 0, total := 0, locked := false, txhistory := [] }

/-- Result type of the ledger operations: the Rust `Result<(), E>` together
with the account state after the operation. -/
abbrev LedgerResult := Except TransactionSystemError Unit × Account

/-- `Account::deposit`. -/
def Account.deposit (self : Account) (data : Transaction) : LedgerResult :=
  (.ok (), { self with
      available := self.available + data.amount
      total := self.total + data.amount
      txhistory := hinsert data.tx data self.txhistory })

/-- `Account::withdrawal`. -/
def Account.withdrawal (self : Account) (data : Transaction) : LedgerResult :=
  let available := self.available - data.amount
  if available ≥ 0 then
    (.ok (), { self with
        available := available
        total := self.total - data.amount
        txhistory := hinsert data.tx data.negate self.txhistory })
  else
    (.error (.TransactionError "attempt to withdraw more than available" data), self)

/-- `Account::dispute`. -/
def Account.dispute (self : Account) (data : Operation) : LedgerResult :=
  match hlookup data.tx self.txhistory with
  | some entry =>
    match entry.try_set_disputed with
    | .ok entry2 =>
      (.ok (), { self with
          available := self.available - entry.amount
          held := self.held + entry.amount
          txhistory := hinsert data.tx entry2 self.txhistory })
    | .error e => (.error e, self)
  | none => (.error (.OperationError "attempt to dispute non-existing transaction" data), self)

/-- `Account::resolve`. -/
def Account.resolve (self : Account) (data : Operation) : LedgerResult :=
  match hlookup data.tx self.txhistory with
  | some entry =>
    match entry.try_set_resolved with
    | .ok entry2 =>
      (.ok (), { self with
          available := self.available + entry.amount
          held := self.held - entry.amount
          txhistory := hinsert data.tx entry2 self.txhistory })
    | .error e => (.error e, self)
  | none => (.error (.OperationError "attempt to resolve non-existing transaction" data), self)

/-- `Account::chargeback`. -/
def Account.chargeback (self : Account) (data : Operation) : LedgerResult :=
  match hlookup data.tx self.txhistory with
  | some entry =>
    match entry.try_set_chargedback with
    | .ok entry2 =>
      (.ok (), { self with
          locked := true
          total := self.total - entry.amount
          held := self.held - entry.amount
          txhistory := hinsert data.tx entry2 self.txhistory })
    | .error e => (.error e, self)
  | none => (.error (.OperationError "attempt to chargeback non-existing transaction" data), self)

/-- `Account::apply`. -/
def Account.apply (self : Account) : Instruction → LedgerResult
  | .Deposit data => self.deposit data
  | .Withdrawal data => self.withdrawal data
  | .Dispute data => self.dispute data
  | .Resolve data => self.resolve data
  | .Chargeback data => self.chargeback data

/-- Apply a stream of instructions in order, keeping the account state and
discarding each per-instruction result, as the router does. -/
def Account.applyAll (self : Account) (l : List Instruction) : Account :=
  l.foldl (fun acc i => (acc.apply i).2) self

/-- The `Register` of `src/main.rs`: the client-id → account book. -/
structure Register : Type where
  thebook : List (Nat × Account)
deriving DecidableEq, Repr

/-- `Register::execute`: look up (or lazily create) the client's account,
apply the instruction, keep the resulting account, swallow any domain error. -/
def Register.execute (self : Register) (instruction : Instruction) : Register :=
  let account := match hlookup instruction.client self.thebook with
    | some a => a
    | none => Account.default
  { thebook := hinsert instruction.client (account.apply instruction).2 self.thebook }

/-- The ledger invariant: the total equals available plus held. -/
def Account.balanced (a : Account) : Prop :=
  a.total = a.available + a.held

deriving instance DecidableEq for Except

/-! ### Helper lemmas about the association-list map -/

theorem hlookup_hinsert_self {α : Type} (k : Nat) (v : α) (l : List (Nat × α)) :
    hlookup k (hinsert k v l) = some v := by
  induction l with
  | nil => simp [hinsert, hlookup]
  | cons p rest ih =>
    obtain ⟨k', v'⟩ := p
    by_cases h : k' = k <;> simp [hinsert, hlookup, h, ih]

theorem hlookup_hinsert_of_ne {α : Type} {k k' : Nat} (v : α) (l : List (Nat × α))
    (h : k' ≠ k) : hlookup k' (hinsert k v l) = hlookup k' l := by
  induction l with
  | nil => simp [hinsert, hlookup, Ne.symm h]
  | cons p rest ih =>
    obtain ⟨k2, v2⟩ := p
    by_cases h2 : k2 = k
    · subst h2
      simp [hinsert, hlookup, Ne.symm h]
    · simp [hinsert, hlookup, h2, ih]

/-! ### Helper lemmas about the ledger operations -/

/-- A ledger operation that fails leaves the account exactly as it was. -/
theorem Account.apply_error_eq_self (a : Account) (i : Instruction)
    (h : (a.apply i).1.isOk = false) : (a.apply i).2 = a := by
  cases i with
  | Deposit d => simp [Account.apply, Account.deposit, Except.isOk, Except.toBool] at h
  | Withdrawal d =>
    by_cases hc : a.available - d.amount ≥ 0
    · simp [Account.apply, Account.withdrawal, hc, Except.isOk, Except.toBool] at h
    · simp [Account.apply, Account.withdrawal, hc]
  | Dispute d =>
    cases hl : hlookup d.tx a.txhistory with
    | none => simp [Account.apply, Account.dispute, hl]
    | some entry =>
      cases he : entry.try_set_disputed with
      | ok e2 =>
        simp [Account.apply, Account.dispute, hl, he, Except.isOk, Except.toBool] at h
      | error e => simp [Account.apply, Account.dispute, hl, he]
  | Resolve d =>
    cases hl : hlookup d.tx a.txhistory with
    | none => simp [Account.apply, Account.resolve, hl]
    | some entry =>
      cases he : entry.try_set_resolved with
      | ok e2 =>
        simp [Account.apply, Account.resolve, hl, he, Except.isOk, Except.toBool] at h
      | error e => simp [Account.apply, Account.resolve, hl, he]
  | Chargeback d =>
    cases hl : hlookup d.tx a.txhistory with
    | none => simp [Account.apply, Account.chargeback, hl]
    | some entry =>
      cases he : entry.try_set_chargedback with
      | ok e2 =>
        simp [Account.apply, Account.chargeback, hl, he, Except.isOk, Except.toBool] at h
      | error e => simp [Account.apply, Account.chargeback, hl, he]

/-- Every single instruction (whether it succeeds or fails) preserves the
`total = available + held` invariant. -/
theorem Account.apply_balanced (a : Account) (i : Instruction) (h : a.balanced) :
    ((a.apply i).2).balanced := by
  unfold Account.balanced at *
  cases i with
  | Deposit d =>
    simp only [Account.apply, Account.deposit]
    linarith
  | Withdrawal d =>
    by_cases hc : a.available - d.amount ≥ 0
    · simp only [Account.apply, Account.withdrawal, hc, if_pos]
      linarith
    · simp [Account.apply, Account.withdrawal, hc, h]
  | Dispute d =>
    cases hl : hlookup d.tx a.txhistory with
    | none => simp [Account.apply, Account.dispute, hl, h]
    | some entry =>
      cases he : entry.try_set_disputed with
      | ok e2 =>
        simp only [Account.apply, Account.dispute, hl, he]
        linarith
      | error e => simp [Account.apply, Account.dispute, hl, he, h]
  | Resolve d =>
    cases hl : hlookup d.tx a.txhistory with
    | none => simp [Account.apply, Account.resolve, hl, h]
    | some entry =>
      cases he : entry.try_set_resolved with
      | ok e2 =>
        simp only [Account.apply, Account.resolve, hl, he]
        linarith
      | error e => simp [Account.apply, Account.resolve, hl, he, h]
  | Chargeback d =>
    cases hl : hlookup d.tx a.txhistory with
    | none => simp [Account.apply, Account.chargeback, hl, h]
    | some entry =>
      cases he : entry.try_set_chargedback with
      | ok e2 =>
        simp only [Account.apply, Account.chargeback, hl, he]
        linarith
      | error e => simp [Account.apply, Account.chargeback, hl, he, h]

/-- The invariant is preserved along any instruction stream. -/
theorem Account.applyAll_balanced (a : Account) (l : List Instruction) (h : a.balanced) :
    (a.applyAll l).balanced := by
  induction l generalizing a with
  | nil => exact h
  | cons i rest ih => exact ih _ (a.apply_balanced i h)

/-! ### Claims -/

/-- C1: starting from the default account (all balances zero, unlocked, empty
history), after applying any sequence of instructions via `Account.apply`
— hence after every instruction of every such sequence, each prefix being
itself a sequence — the equality `total = available + held` holds exactly. -/
theorem C1_total_eq_available_add_held (l : List Instruction) :
    (Account.default.applyAll l).total =
      (Account.default.applyAll l).available + (Account.default.applyAll l).held := by
  have h0 : Account.default.balanced := by simp [Account.default, Account.balanced]
  exact Account.applyAll_balanced _ l h0

/-- C2 counterexample: at the default account, the withdrawal of amount
`-5` satisfies `available - amount ≥ 0` and succeeds, but the recorded
history entry stores the amount `-5` itself, not the arithmetic negation
`-(-5) = 5`: `negate` forces the sign flag negative rather than negating. -/
theorem C2_counterexample :
    Account.default.available - (-5 : ℚ) ≥ 0 ∧
    (Account.default.withdrawal ⟨1, 1, -5, .Undisputed⟩).1 = .ok () ∧
    hlookup 1 (Account.default.withdrawal ⟨1, 1, -5, .Undisputed⟩).2.txhistory
      = some ⟨1, 1, -5, .Undisputed⟩ ∧
    (-5 : ℚ) ≠ -(-5 : ℚ) := by
  refine ⟨by norm_num [Account.default], ?_, ?_, by norm_num⟩
  · norm_num [Account.withdrawal, Account.default]
  · norm_num [Account.withdrawal, Account.default, Transaction.negate, hinsert, hlookup]

/-- C2 (amended): a withdrawal with `available - amount ≥ 0` succeeds,
decreases `available` and `total` by the amount, and records under that tx
an entry whose stored amount is the withdrawn amount with the sign flag
forced negative, i.e. `-|amount|`; this equals the arithmetic negation
`-amount` whenever `amount ≥ 0`, but not for negative amounts. -/
theorem C2_withdrawal_records_sign_forced_negative (self : Account) (data : Transaction)
    (h : self.available - data.amount ≥ 0) :
    (self.withdrawal data).1 = .ok () ∧
    (self.withdrawal data).2.available = self.available - data.amount ∧
    (self.withdrawal data).2.total = self.total - data.amount ∧
    (self.withdrawal data).2.held = self.held ∧
    (self.withdrawal data).2.locked = self.locked ∧
    hlookup data.tx (self.withdrawal data).2.txhistory = some data.negate ∧
    data.negate.amount = -|data.amount| ∧
    (0 ≤ data.amount → data.negate.amount = -data.amount) := by
  refine ⟨?_, ?_, ?_, ?_, ?_, ?_, rfl, ?_⟩
  · simp [Account.withdrawal, h]
  · simp [Account.withdrawal, h]
  · simp [Account.withdrawal, h]
  · simp [Account.withdrawal, h]
  · simp [Account.withdrawal, h]
  · simp [Account.withdrawal, h, hlookup_hinsert_self]
  · intro hnn
    simp [Transaction.negate, abs_of_nonneg hnn]

/-- C4: a withdrawal with `available - amount < 0` fails with the
insufficient-funds error carrying the transaction, and the account — all
four balance/flag fields and the history — is left exactly as it was. -/
theorem C4_withdrawal_insufficient_funds (self : Account) (data : Transaction)
    (h : self.available - data.amount < 0) :
    (self.withdrawal data).1
      = .error (.TransactionError "attempt to withdraw more than available" data) ∧
    (self.withdrawal data).2 = self := by
  have h2 : ¬ self.available - data.amount ≥ 0 := by linarith
  simp [Account.withdrawal, h2]

/-- C7: a dispute, resolve or chargeback whose tx is absent from the
history returns the corresponding unknown-transaction error and leaves the
account completely unchanged. -/
theorem C7_unknown_tx_error_no_change (self : Account) (op : Operation)
    (h : hlookup op.tx self.txhistory = none) :
    self.dispute op
      = (.error (.OperationError "attempt to dispute non-existing transaction" op), self) ∧
    self.resolve op
      = (.error (.OperationError "attempt to resolve non-existing transaction" op), self) ∧
    self.chargeback op
      = (.error (.OperationError "attempt to chargeback non-existing transaction" op), self) := by
  simp [Account.dispute, Account.resolve, Account.chargeback, h]

/-- C8: a deposit always succeeds, increases `available` and `total` by the
amount (leaving `held` and `locked` unchanged), and records the transaction
with state `Undisputed` under its tx id, overwriting any prior entry with
that id while leaving every other id's entry untouched (last-write-wins). -/
theorem C8_deposit_always_succeeds (self : Account) (data : Transaction)
    (hstate : data.state = .Undisputed) :
    (self.deposit data).1 = .ok () ∧
    (self.deposit data).2.available = self.available + data.amount ∧
    (self.deposit data).2.total = self.total + data.amount ∧
    (self.deposit data).2.held = self.held ∧
    (self.deposit data).2.locked = self.locked ∧
    hlookup data.tx (self.deposit data).2.txhistory = some data ∧
    (hlookup data.tx (self.deposit data).2.txhistory).map Transaction.state
      = some TransactionState.Undisputed ∧
    (∀ k, k ≠ data.tx → hlookup k (self.deposit data).2.txhistory = hlookup k self.txhistory) := by
  refine ⟨rfl, rfl, rfl, rfl, rfl, ?_, ?_, ?_⟩
  · simp [Account.deposit, hlookup_hinsert_self]
  · simp [Account.deposit, hlookup_hinsert_self, hstate]
  · intro k hk
    simp [Account.deposit, hlookup_hinsert_of_ne _ _ hk]

/-- Witness for C2 (amended): withdrawing 3 from an account with 10
available succeeds and the recorded amount is `-3`. -/
theorem C2_withdrawal_records_sign_forced_negative_witness :
    ((Account.mk 10 0 10 false []).withdrawal ⟨1, 2, 3, .Undisputed⟩).1 = .ok () ∧
    (Transaction.negate ⟨1, 2, 3, .Undisputed⟩).amount = -(3 : ℚ) :=
  ⟨(C2_withdrawal_records_sign_forced_negative (Account.mk 10 0 10 false [])
      ⟨1, 2, 3, .Undisputed⟩ (by norm_num)).1,
   (C2_withdrawal_records_sign_forced_negative (Account.mk 10 0 10 false [])
      ⟨1, 2, 3, .Undisputed⟩ (by norm_num)).2.2.2.2.2.2.2 (by norm_num)⟩

/-- Witness for C4: withdrawing 7 from the default (zero-balance) account
fails and leaves the account unchanged. -/
theorem C4_withdrawal_insufficient_funds_witness :
    (Account.default.withdrawal ⟨1, 2, 7, .Undisputed⟩).1
      = .error (.TransactionError "attempt to withdraw more than available"
          ⟨1, 2, 7, .Undisputed⟩) ∧
    (Account.default.withdrawal ⟨1, 2, 7, .Undisputed⟩).2 = Account.default :=
  C4_withdrawal_insufficient_funds Account.default ⟨1, 2, 7, .Undisputed⟩
    (by norm_num [Account.default])

/-- Witness for C7: disputing tx 9 on the default (empty-history) account
returns the unknown-transaction error and leaves the account unchanged. -/
theorem C7_unknown_tx_error_no_change_witness :
    Account.default.dispute ⟨3, 9⟩
      = (.error (.OperationError "attempt to dispute non-existing transaction" ⟨3, 9⟩),
         Account.default) :=
  (C7_unknown_tx_error_no_change Account.default ⟨3, 9⟩ rfl).1

/-- Witness for C8: a deposit of 5 under tx 1 on the default account
succeeds and is found in the history, and tx 0 stays absent. -/
theorem C8_deposit_always_succeeds_witness :
    hlookup 1 (Account.default.deposit ⟨1, 1, 5, .Undisputed⟩).2.txhistory
      = some ⟨1, 1, 5, .Undisputed⟩ ∧
    hlookup 0 (Account.default.deposit ⟨1, 1, 5, .Undisputed⟩).2.txhistory
      = hlookup 0 Account.default.txhistory :=
  ⟨(C8_deposit_always_succeeds Account.default ⟨1, 1, 5, .Undisputed⟩ rfl).2.2.2.2.2.1,
   (C8_deposit_always_succeeds Account.default ⟨1, 1, 5, .Undisputed⟩ rfl).2.2.2.2.2.2.2
     0 (by decide)⟩

/-- C3: the dispute-state machine admits exactly the legal transitions
(dispute: `Undisputed`/`Resolved` → `Disputed`; resolve: `Disputed` →
`Resolved`; chargeback: `Disputed` → `Chargedback`); every other requested
transition errors with the attempted old/new pair, a failed operation
leaves the account (hence the record's state) unchanged; disputing the same
tx twice in a row fails the second time, while dispute–resolve–dispute all
succeed. -/
theorem C3_dispute_state_machine :
    (∀ t : Transaction, t.state = .Undisputed ∨ t.state = .Resolved →
        t.try_set_disputed = .ok { t with state := .Disputed }) ∧
    (∀ t : Transaction, t.state = .Disputed ∨ t.state = .Chargedback →
        t.try_set_disputed = .error (.TransactionStateError t.state .Disputed)) ∧
    (∀ t : Transaction, t.state = .Disputed →
        t.try_set_resolved = .ok { t with state := .Resolved } ∧
        t.try_set_chargedback = .ok { t with state := .Chargedback }) ∧
    (∀ t : Transaction, t.state ≠ .Disputed →
        t.try_set_resolved = .error (.TransactionStateError t.state .Resolved) ∧
        t.try_set_chargedback = .error (.TransactionStateError t.state .Chargedback)) ∧
    (∀ (self : Account) (op : Operation),
        ((self.dispute op).1.isOk = false → (self.dispute op).2 = self) ∧
        ((self.resolve op).1.isOk = false → (self.resolve op).2 = self) ∧
        ((self.chargeback op).1.isOk = false → (self.chargeback op).2 = self)) ∧
    ((((Account.default.deposit ⟨1, 1, 5, .Undisputed⟩).2.dispute ⟨1, 1⟩).1 = .ok () ∧
      (((Account.default.deposit ⟨1, 1, 5, .Undisputed⟩).2.dispute ⟨1, 1⟩).2.dispute
          ⟨1, 1⟩).1 = .error (.TransactionStateError .Disputed .Disputed)) ∧
     ((((Account.default.deposit ⟨1, 1, 5, .Undisputed⟩).2.dispute ⟨1, 1⟩).2.resolve
          ⟨1, 1⟩).1 = .ok () ∧
      ((((Account.default.deposit ⟨1, 1, 5, .Undisputed⟩).2.dispute ⟨1, 1⟩).2.resolve
          ⟨1, 1⟩).2.dispute ⟨1, 1⟩).1 = .ok ())) := by
  refine ⟨?_, ?_, ?_, ?_, ?_, by decide⟩
  · rintro t (h | h) <;> simp [Transaction.try_set_disputed, h]
  · rintro t (h | h) <;> simp [Transaction.try_set_disputed, h]
  · intro t h
    exact ⟨by simp [Transaction.try_set_resolved, h],
           by simp [Transaction.try_set_chargedback, h]⟩
  · intro t h
    constructor
    · cases ht : t.state <;> simp_all [Transaction.try_set_resolved]
    · cases ht : t.state <;> simp_all [Transaction.try_set_chargedback]
  · intro self op
    exact ⟨Account.apply_error_eq_self self (.Dispute op),
           Account.apply_error_eq_self self (.Resolve op),
           Account.apply_error_eq_self self (.Chargeback op)⟩

/-- Witness for C3: a fresh (`Undisputed`) record can be disputed; a
charged-back record cannot be resolved. -/
theorem C3_dispute_state_machine_witness :
    Transaction.try_set_disputed ⟨1, 1, 5, .Undisputed⟩ = .ok ⟨1, 1, 5, .Disputed⟩ ∧
    Transaction.try_set_resolved ⟨1, 1, 5, .Chargedback⟩
      = .error (.TransactionStateError .Chargedback .Resolved) :=
  ⟨C3_dispute_state_machine.1 ⟨1, 1, 5, .Undisputed⟩ (Or.inl rfl),
   (C3_dispute_state_machine.2.2.2.1 ⟨1, 1, 5, .Chargedback⟩ (by decide)).1⟩

/-- C5: a dispute on a tx present in history with a legal transition
succeeds and performs `available -= amount; held += amount` with the
record's stored signed amount, leaving `total` (and `locked`) unchanged;
with an illegal transition it errors and mutates nothing. -/
theorem C5_dispute_moves_funds (self : Account) (op : Operation) (entry : Transaction)
    (hfound : hlookup op.tx self.txhistory = some entry) :
    (entry.state = .Undisputed ∨ entry.state = .Resolved →
      (self.dispute op).1 = .ok () ∧
      (self.dispute op).2.available = self.available - entry.amount ∧
      (self.dispute op).2.held = self.held + entry.amount ∧
      (self.dispute op).2.total = self.total ∧
      (self.dispute op).2.locked = self.locked) ∧
    (entry.state = .Disputed ∨ entry.state = .Chargedback →
      (self.dispute op).1 = .error (.TransactionStateError entry.state .Disputed) ∧
      (self.dispute op).2 = self) := by
  constructor
  · rintro (h | h) <;>
      simp [Account.dispute, hfound, Transaction.try_set_disputed, h]
  · rintro (h | h) <;>
      simp [Account.dispute, hfound, Transaction.try_set_disputed, h]

/-- Witness for C5: disputing a deposited tx succeeds and keeps the total. -/
theorem C5_dispute_moves_funds_witness :
    (((Account.default.deposit ⟨1, 1, 5, .Undisputed⟩).2.dispute ⟨1, 1⟩).1 = .ok ()) ∧
    ((Account.default.deposit ⟨1, 1, 5, .Undisputed⟩).2.dispute ⟨1, 1⟩).2.total
      = (Account.default.deposit ⟨1, 1, 5, .Undisputed⟩).2.total :=
  ⟨((C5_dispute_moves_funds _ ⟨1, 1⟩ ⟨1, 1, 5, .Undisputed⟩ (by decide)).1 (Or.inl rfl)).1,
   ((C5_dispute_moves_funds _ ⟨1, 1⟩ ⟨1, 1, 5, .Undisputed⟩ (by decide)).1
      (Or.inl rfl)).2.2.2.1⟩

/-- C6 counterexample: after a successful chargeback on tx 1, a later
deposit reusing tx id 1 overwrites the charged-back record (last-write-wins),
and a subsequent dispute on tx 1 then succeeds — refuting "every subsequent
dispute on the charged-back tx fails". -/
theorem C6_counterexample :
    ((((Account.default.deposit ⟨1, 1, 5, .Undisputed⟩).2.dispute ⟨1, 1⟩).2.chargeback
        ⟨1, 1⟩).1 = .ok ()) ∧
    (hlookup 1 (((Account.default.deposit ⟨1, 1, 5, .Undisputed⟩).2.dispute
        ⟨1, 1⟩).2.chargeback ⟨1, 1⟩).2.txhistory).map Transaction.state
      = some .Chargedback ∧
    (((((Account.default.deposit ⟨1, 1, 5, .Undisputed⟩).2.dispute ⟨1, 1⟩).2.chargeback
        ⟨1, 1⟩).2.deposit ⟨1, 1, 5, .Undisputed⟩).2.dispute ⟨1, 1⟩).1 = .ok () := by
  decide

/-- C6 (amended): a successful chargeback sets `locked = true`; `locked`
is permanent — no instruction, nor any instruction sequence, ever resets it
to `false`; and a dispute on a tx whose history record is (still) in state
`Chargedback` fails and leaves the account unchanged.  (The permanence of
the record's `Chargedback` state itself is only guaranteed while no later
deposit/withdrawal overwrites that tx id, see the counterexample.) -/
theorem C6_chargeback_locks_permanently :
    (∀ (self : Account) (op : Operation),
        (self.chargeback op).1 = .ok () → (self.chargeback op).2.locked = true) ∧
    (∀ (a : Account) (i : Instruction), a.locked = true → ((a.apply i).2).locked = true) ∧
    (∀ (a : Account) (l : List Instruction), a.locked = true → (a.applyAll l).locked = true) ∧
    (∀ (self : Account) (op : Operation) (entry : Transaction),
        hlookup op.tx self.txhistory = some entry → entry.state = .Chargedback →
        (self.dispute op).1 = .error (.TransactionStateError .Chargedback .Disputed) ∧
        (self.dispute op).2 = self) := by
  have hstep : ∀ (a : Account) (i : Instruction), a.locked = true → ((a.apply i).2).locked = true := by
    intro a i h
    cases i with
    | Deposit d => simpa [Account.apply, Account.deposit] using h
    | Withdrawal d =>
      by_cases hc : a.available - d.amount ≥ 0 <;>
        simpa [Account.apply, Account.withdrawal, hc] using h
    | Dispute d =>
      cases hl : hlookup d.tx a.txhistory with
      | none => simpa [Account.apply, Account.dispute, hl] using h
      | some entry =>
        cases he : entry.try_set_disputed with
        | ok e2 => simpa [Account.apply, Account.dispute, hl, he] using h
        | error e => simpa [Account.apply, Account.dispute, hl, he] using h
    | Resolve d =>
      cases hl : hlookup d.tx a.txhistory with
      | none => simpa [Account.apply, Account.resolve, hl] using h
      | some entry =>
        cases he : entry.try_set_resolved with
        | ok e2 => simpa [Account.apply, Account.resolve, hl, he] using h
        | error e => simpa [Account.apply, Account.resolve, hl, he] using h
    | Chargeback d =>
      cases hl : hlookup d.tx a.txhistory with
      | none => simpa [Account.apply, Account.chargeback, hl] using h
      | some entry =>
        cases he : entry.try_set_chargedback with
        | ok e2 => simp [Account.apply, Account.chargeback, hl, he]
        | error e => simpa [Account.apply, Account.chargeback, hl, he] using h
  refine ⟨?_, hstep, ?_, ?_⟩
  · intro self op h
    cases hl : hlookup op.tx self.txhistory with
    | none => simp [Account.chargeback, hl] at h
    | some entry =>
      cases he : entry.try_set_chargedback with
      | ok e2 => simp [Account.chargeback, hl, he]
      | error e => simp [Account.chargeback, hl, he] at h
  · intro a l h
    induction l generalizing a with
    | nil => exact h
    | cons i rest ih => exact ih _ (hstep a i h)
  · intro self op entry hfound hstate
    simp [Account.dispute, hfound, Transaction.try_set_disputed, hstate]

/-- Witness for C6 (amended): a concrete chargeback locks the account, and a
locked account stays locked under a further deposit. -/
theorem C6_chargeback_locks_permanently_witness :
    ((((Account.default.deposit ⟨1, 1, 5, .Undisputed⟩).2.dispute ⟨1, 1⟩).2.chargeback
        ⟨1, 1⟩).2.locked = true) ∧
    ((Account.mk 0 0 0 true []).apply (.Deposit ⟨1, 1, 5, .Undisputed⟩)).2.locked = true :=
  ⟨C6_chargeback_locks_permanently.1 _ ⟨1, 1⟩ (by decide),
   C6_chargeback_locks_permanently.2.1 (Account.mk 0 0 0 true [])
     (.Deposit ⟨1, 1, 5, .Undisputed⟩) rfl⟩

/-- C9: the `locked` flag never blocks processing — two accounts differing
only in `locked` yield the same result and the same `available`, `held`,
`total` and history under any instruction, and `locked` itself is changed
only by chargeback instructions. -/
theorem C9_locked_never_blocks (a b : Account) (i : Instruction)
    (hav : a.available = b.available) (hh : a.held = b.held)
    (ht : a.total = b.total) (hx : a.txhistory = b.txhistory) :
    (a.apply i).1 = (b.apply i).1 ∧
    (a.apply i).2.available = (b.apply i).2.available ∧
    (a.apply i).2.held = (b.apply i).2.held ∧
    (a.apply i).2.total = (b.apply i).2.total ∧
    (a.apply i).2.txhistory = (b.apply i).2.txhistory ∧
    ((∀ d, i ≠ .Chargeback d) →
      (a.apply i).2.locked = a.locked ∧ (b.apply i).2.locked = b.locked) := by
  obtain ⟨av, hd, tt, l1, xs⟩ := a
  obtain ⟨av2, hd2, tt2, l2, xs2⟩ := b
  simp only at hav hh ht hx
  subst hav; subst hh; subst ht; subst hx
  cases i with
  | Deposit d => simp [Account.apply, Account.deposit]
  | Withdrawal d =>
    by_cases hc : av - d.amount ≥ 0 <;> simp [Account.apply, Account.withdrawal, hc]
  | Dispute d =>
    cases hl : hlookup d.tx xs with
    | none => simp [Account.apply, Account.dispute, hl]
    | some entry =>
      cases he : entry.try_set_disputed with
      | ok e2 => simp [Account.apply, Account.dispute, hl, he]
      | error e => simp [Account.apply, Account.dispute, hl, he]
  | Resolve d =>
    cases hl : hlookup d.tx xs with
    | none => simp [Account.apply, Account.resolve, hl]
    | some entry =>
      cases he : entry.try_set_resolved with
      | ok e2 => simp [Account.apply, Account.resolve, hl, he]
      | error e => simp [Account.apply, Account.resolve, hl, he]
  | Chargeback d =>
    refine ⟨?_, ?_, ?_, ?_, ?_, fun hne => absurd rfl (hne d)⟩ <;>
      (cases hl : hlookup d.tx xs with
       | none => simp [Account.apply, Account.chargeback, hl]
       | some entry =>
         cases he : entry.try_set_chargedback with
         | ok e2 => simp [Account.apply, Account.chargeback, hl, he]
         | error e => simp [Account.apply, Account.chargeback, hl, he])

/-- Witness for C9: a locked and an unlocked zero-balance account accept
the same deposit with the same resulting available balance. -/
theorem C9_locked_never_blocks_witness :
    ((Account.mk 0 0 0 false []).apply (.Deposit ⟨1, 1, 5, .Undisputed⟩)).2.available
      = ((Account.mk 0 0 0 true []).apply (.Deposit ⟨1, 1, 5, .Undisputed⟩)).2.available :=
  (C9_locked_never_blocks (Account.mk 0 0 0 false []) (Account.mk 0 0 0 true [])
    (.Deposit ⟨1, 1, 5, .Undisputed⟩) rfl rfl rfl rfl).2.1

/-- C10: `Register::execute` always leaves an account stored under the
instruction's client id; for a never-seen client it stores the result of
applying the instruction to the default account, which — when the ledger
operation fails — is exactly the default (zero balances, unlocked, empty
history), so the client still appears in the final snapshot; the error is
swallowed (execute is a total function into `Register`). -/
theorem C10_router_lazily_creates_account (reg : Register) (i : Instruction) :
    (hlookup i.client (reg.execute i).thebook).isSome = true ∧
    (hlookup i.client reg.thebook = none →
      hlookup i.client (reg.execute i).thebook = some ((Account.default.apply i).2)) ∧
    (hlookup i.client reg.thebook = none → (Account.default.apply i).1.isOk = false →
      hlookup i.client (reg.execute i).thebook = some Account.default) := by
  refine ⟨?_, ?_, ?_⟩
  · simp [Register.execute, hlookup_hinsert_self]
  · intro h
    simp [Register.execute, h, hlookup_hinsert_self]
  · intro h hfail
    simp [Register.execute, h, hlookup_hinsert_self,
      Account.apply_error_eq_self _ _ hfail]

/-- Witness for C10: a dispute on an unknown tx from a never-seen client
still inserts that client with the default (zeroed) account. -/
theorem C10_router_lazily_creates_account_witness :
    hlookup 7 ((Register.mk []).execute (.Dispute ⟨7, 42⟩)).thebook
      = some Account.default :=
  (C10_router_lazily_creates_account (Register.mk []) (.Dispute ⟨7, 42⟩)).2.2 rfl
    (by decide)

end TxSys
